import Mathlib

/-!
Shallow embedding of the measurement engine of src/src/dns-test.js
(the revision the specification cites: the one that derives keys with
computeKey over the COMMON_QUERIES catalog, keeps dnsData and dnsAttempts
as initially-empty objects, and builds the work list in sendQueries).

JavaScript particulars that matter here are modelled explicitly:
- object maps start empty, so reading an unseen property yields undefined;
- undefined + 1 evaluates to NaN, and NaN + 1 stays NaN (JSNum below);
- arrays (even empty ones) are truthy, so the guard !dnsData[key] is true
  exactly when the key is absent;
- !x == 0 parses as (!x) == 0, which converts the boolean to a number.
-/

namespace DnsTest

/-- A JavaScript numeric value as stored in the dnsAttempts map: either a
natural number or NaN (the result of incrementing undefined). -/
inductive JSNum where
  | nan : JSNum
  | num : Nat → JSNum
deriving DecidableEq, Repr

/-- The JS expression m[key] += 1 on a map of numbers: undefined + 1 = NaN,
NaN + 1 = NaN, n + 1 = n + 1. -/
def jsSucc : Option JSNum → JSNum
  | none => JSNum.nan
  | some JSNum.nan => JSNum.nan
  | some (JSNum.num n) => JSNum.num (n + 1)

/-- JS falsiness of dnsAttempts[key]: undefined, NaN and 0 are falsy. -/
def jsFalsyNum : Option JSNum → Bool
  | none => true
  | some JSNum.nan => true
  | some (JSNum.num 0) => true
  | some (JSNum.num (_ + 1)) => false

/-- Association-list model of a JS object used as a map. -/
abbrev JSMap (β : Type) := List (String × β)

/-- Property read: m[key], undefined modelled as none. -/
def mapGet {β : Type} (m : JSMap β) (k : String) : Option β :=
  (m.find? (fun p => p.1 == k)).map (fun p => p.2)

/-- Property write: m[key] = v (updates in place, else appends). -/
def mapSet {β : Type} (m : JSMap β) (k : String) (v : β) : JSMap β :=
  match m with
  | [] => [(k, v)]
  | p :: rest => if p.1 == k then (k, v) :: rest else p :: mapSet rest k v

def APEX_DOMAIN_NAME : String := "dnssec-experiment-moz.net"

def SMIMEA_LABEL : String := "9f86d081884c7d659a2feaa0c55ad015a3bf4f1b2b0b822cd15d6c15."

def HTTPS_LABEL : String := "httpssvc."

def PC_LABEL : String := "pc."

def RESOLVCONF_ATTEMPTS : Nat := 2

def UDP_PAYLOAD_SIZE : Nat := 4096

def STUDY_MEASUREMENT_COMPLETED : String := "STUDY_MEASUREMENT_COMPLETED"

def STUDY_ERROR_UDP_WEBEXT : String := "STUDY_ERROR_UDP_WEBEXT"

def STUDY_ERROR_UDP_MISC : String := "STUDY_ERROR_UDP_MISC"

def STUDY_ERROR_TCP_MISC : String := "STUDY_ERROR_TCP_MISC"

def STUDY_ERROR_UDP_ENCODE : String := "STUDY_ERROR_UDP_ENCODE"

def STUDY_ERROR_TCP_ENCODE : String := "STUDY_ERROR_TCP_ENCODE"

/-- One catalog entry of COMMON_QUERIES. JS object fields that are omitted
in a literal read back as undefined (falsy), so the absent flags are
modelled as false. The source field named prefix is called prefixStr. -/
structure QueryVariant where
  rrtype : String
  prefixStr : String
  dnssec_ok : Bool
  checking_disabled : Bool
  noedns0 : Bool
deriving DecidableEq, Repr

/-- The fixed catalog COMMON_QUERIES from the source, in order. -/
def COMMON_QUERIES : List QueryVariant :=
  [ ⟨"SMIMEA", SMIMEA_LABEL, false, false, false⟩,
    ⟨"HTTPS", HTTPS_LABEL, false, false, false⟩,
    ⟨"A", "", false, false, false⟩,
    ⟨"A", "", false, false, true⟩,
    ⟨"A", "", false, true, false⟩,
    ⟨"A", "", true, false, false⟩,
    ⟨"A", "", true, true, false⟩,
    ⟨"DNSKEY", "", false, false, false⟩,
    ⟨"RRSIG", "", false, false, false⟩,
    ⟨"NEWONE", "", false, false, false⟩,
    ⟨"NEWTWO", "", false, false, false⟩,
    ⟨"NEWTHREE", "", false, false, false⟩,
    ⟨"NEWFOUR", "", false, false, false⟩ ]

/-- computeKey from the source: tmp = transport + args.rrtype, then the
suffixes DO, CD, -U, -N appended in that fixed order when the matching
flag is set. -/
def computeKey (transport : String) (args : QueryVariant) (perClient : Bool) : String :=
  let tmp := transport ++ args.rrtype
  let tmp := if args.dnssec_ok then tmp ++ "DO" else tmp
  let tmp := if args.checking_disabled then tmp ++ "CD" else tmp
  let tmp := if perClient then tmp ++ "-U" else tmp
  let tmp := if args.noedns0 then tmp ++ "-N" else tmp
  tmp

/-- An EDNS0 OPT pseudo-record as the source passes it to the dns-packet
library: an optional udpPayloadSize field and the DNSSEC-OK flag. -/
structure OptRecord where
  udpPayloadSize : Option Nat
  dnssecOkFlag : Bool
deriving DecidableEq, Repr

/-- The record handed to DNS_PACKET.encode / DNS_PACKET.streamEncode: a
query with a transaction id, the RD flag always set, the CD flag as
requested, one question, and the additionals list (null modelled as []). -/
structure DNSQueryMsg where
  id : Nat
  recursionDesired : Bool
  checkingDisabled : Bool
  qname : String
  qtype : String
  additionals : List OptRecord
deriving DecidableEq, Repr

/-- encodeUDPQuery from the source, with the random transaction id made a
parameter. additionals starts as no-OPT when noedns0, else one OPT with
udpPayloadSize 4096; a set dnssec_ok then overwrites additionals with an
OPT carrying the DNSSEC-OK flag (and the payload size) unconditionally. -/
def encodeUDPQuery (domain rrtype : String)
    (dnssec_ok checking_disabled noedns0 : Bool) (id : Nat) : DNSQueryMsg :=
  let additionals : List OptRecord :=
    if noedns0 then [] else [⟨some UDP_PAYLOAD_SIZE, false⟩]
  let additionals :=
    if dnssec_ok then [⟨some UDP_PAYLOAD_SIZE, true⟩] else additionals
  { id := id
    recursionDesired := true
    checkingDisabled := checking_disabled
    qname := domain
    qtype := rrtype
    additionals := additionals }

/-- encodeTCPQuery from the source: no noedns0 input at all; additionals is
null unless dnssec_ok, in which case one OPT without a payload size. -/
def encodeTCPQuery (domain rrtype : String)
    (dnssec_ok checking_disabled : Bool) (id : Nat) : DNSQueryMsg :=
  let additionals : List OptRecord :=
    if dnssec_ok then [⟨none, true⟩] else []
  { id := id
    recursionDesired := true
    checkingDisabled := checking_disabled
    qname := domain
    qtype := rrtype
    additionals := additionals }

/-- The packet a TCP work item sends for a variant: sendTCPQuery
destructures only rrtype, dnssec_ok and checking_disabled from the query
object before calling encodeTCPQuery. -/
def tcpQueryOf (domain : String) (q : QueryVariant) (id : Nat) : DNSQueryMsg :=
  encodeTCPQuery domain q.rrtype q.dnssec_ok q.checking_disabled id

/-- One telemetry error ping, as sendTelemetry receives it from the send
paths: a reason, and (when present) the errorRRTYPE and errorAttempt
fields. The encode-error pings carry only the reason. -/
structure Ping where
  reason : String
  errorRRTYPE : Option String
  errorAttempt : Option JSNum
deriving DecidableEq, Repr

/-- The process-wide mutable state of a run: the dnsAttempts and dnsData
objects (both initialised to empty object literals in this revision of the
source) plus the ordered list of error pings emitted so far. -/
structure MState where
  dnsAttempts : JSMap JSNum
  dnsData : JSMap (List Nat)
  pings : List Ping
deriving DecidableEq, Repr

/-- The state at the start of a run: dnsData and dnsAttempts are the empty
object literals of this revision of the source, and no pings were sent. -/
def initialState : MState := ⟨[], [], []⟩

/-- Outcome of one socket round trip: response bytes, or a thrown error
carrying its message string. -/
abbrev SendOutcome := Except String (List Nat)

/-- Error classification in sendUDPQuery: keep the message when it starts
with the protocol tag, otherwise report the generic UDP reason. -/
def classifyUDPError (msg : String) : String :=
  if msg.startsWith "STUDY_ERROR_UDP" then msg else STUDY_ERROR_UDP_MISC

/-- Error classification in sendTCPQuery. -/
def classifyTCPError (msg : String) : String :=
  if msg.startsWith "STUDY_ERROR_TCP" then msg else STUDY_ERROR_TCP_MISC

/-- The inner nameserver loop of sendUDPQuery. The oracle gives the outcome
of each round trip, indexed by a ghost counter of send attempts issued so
far for this work item (the counter is bookkeeping for the proofs; the
source has no such variable). Per nameserver: dnsAttempts[key] += 1
(unguarded, so an unseen key becomes NaN), then the round trip; on success
dnsData[key] is set only when absent and the whole call returns; on error a
ping with the classified reason, the key and the current dnsAttempts[key]
is emitted and the loop continues. Returns the state, the ghost counter,
and whether the item finished with a success. -/
def udpNsLoop (key : String) (oracle : Nat → SendOutcome) :
    List String → Nat → MState → MState × Nat × Bool
  | [], issued, st => (st, issued, false)
  | _ :: rest, issued, st =>
    let st := { st with dnsAttempts := mapSet st.dnsAttempts key (jsSucc (mapGet st.dnsAttempts key)) }
    match oracle issued with
    | Except.ok bytes =>
      let st :=
        if (mapGet st.dnsData key).isNone then
          { st with dnsData := mapSet st.dnsData key bytes }
        else st
      (st, issued + 1, true)
    | Except.error msg =>
      let st := { st with pings := st.pings ++ [⟨classifyUDPError msg, some key, mapGet st.dnsAttempts key⟩] }
      udpNsLoop key oracle rest (issued + 1) st

/-- The outer retry loop of sendUDPQuery: for i in 1..RESOLVCONF_ATTEMPTS,
run a full pass over the nameservers; the early return on success also
leaves the outer loop. -/
def udpPassLoop (key : String) (oracle : Nat → SendOutcome) (ns : List String) :
    Nat → Nat → MState → MState × Nat × Bool
  | 0, issued, st => (st, issued, false)
  | p + 1, issued, st =>
    match udpNsLoop key oracle ns issued st with
    | (st, n, true) => (st, n, true)
    | (st, n, false) => udpPassLoop key oracle ns p n st

/-- The body of sendUDPQuery after a successful packet encode. -/
def sendUDPQueryRun (key : String) (ns : List String) (oracle : Nat → SendOutcome)
    (st : MState) : MState × Nat × Bool :=
  udpPassLoop key oracle ns RESOLVCONF_ATTEMPTS 0 st

/-- The nameserver loop of sendTCPQuery: a single pass. Unlike the UDP
path, the attempt counter is guarded: if (!dnsAttempts[key]) it is first
set to 0, then incremented. -/
def tcpNsLoop (key : String) (oracle : Nat → SendOutcome) :
    List String → Nat → MState → MState × Nat × Bool
  | [], issued, st => (st, issued, false)
  | _ :: rest, issued, st =>
    let st :=
      if jsFalsyNum (mapGet st.dnsAttempts key) then
        { st with dnsAttempts := mapSet st.dnsAttempts key (JSNum.num 0) }
      else st
    let st := { st with dnsAttempts := mapSet st.dnsAttempts key (jsSucc (mapGet st.dnsAttempts key)) }
    match oracle issued with
    | Except.ok bytes =>
      let st :=
        if (mapGet st.dnsData key).isNone then
          { st with dnsData := mapSet st.dnsData key bytes }
        else st
      (st, issued + 1, true)
    | Except.error msg =>
      let st := { st with pings := st.pings ++ [⟨classifyTCPError msg, some key, mapGet st.dnsAttempts key⟩] }
      tcpNsLoop key oracle rest (issued + 1) st

/-- The body of sendTCPQuery after a successful packet encode. -/
def sendTCPQueryRun (key : String) (ns : List String) (oracle : Nat → SendOutcome)
    (st : MState) : MState × Nat × Bool :=
  tcpNsLoop key oracle ns 0 st

/-- sendUDPWebExtQuery: key is the literal "udpAWebExt"; one unguarded
dnsAttempts increment; on success the source tests (!dnsData[key]) == 0,
which is the JS comparison of a boolean with the number 0, hence true
exactly when dnsData[key] is already present (stored arrays are truthy);
on error one ping with the webext reason. -/
def sendUDPWebExtQuery (oracle : SendOutcome) (st : MState) : MState :=
  let key := "udpAWebExt"
  let st := { st with dnsAttempts := mapSet st.dnsAttempts key (jsSucc (mapGet st.dnsAttempts key)) }
  match oracle with
  | Except.ok addrs =>
    if (mapGet st.dnsData key).isSome then
      { st with dnsData := mapSet st.dnsData key addrs }
    else st
  | Except.error _ =>
    { st with pings := st.pings ++ [⟨STUDY_ERROR_UDP_WEBEXT, some key, mapGet st.dnsAttempts key⟩] }

/-- One entry of the shuffled work list built in sendQueries. Whether the
dns-packet encode call throws for the requested rrtype is a behaviour of
the external library, abstracted as the encodeOk flag. -/
inductive WorkItem where
  | webextItem (oracle : SendOutcome)
  | udpItem (key : String) (encodeOk : Bool) (ns : List String) (oracle : Nat → SendOutcome)
  | tcpItem (key : String) (encodeOk : Bool) (ns : List String) (oracle : Nat → SendOutcome)

/-- Run one work item. The webext path never throws (its only failure is
caught and recorded). The UDP and TCP paths, when the encode fails, emit
one reason-only ping and then throw: the error value carries the state at
the throw, mirroring that the telemetry was already sent. -/
def runItem : WorkItem → MState → Except MState MState
  | WorkItem.webextItem oracle, st => Except.ok (sendUDPWebExtQuery oracle st)
  | WorkItem.udpItem key encodeOk ns oracle, st =>
    if encodeOk then Except.ok (sendUDPQueryRun key ns oracle st).1
    else Except.error { st with pings := st.pings ++ [⟨STUDY_ERROR_UDP_ENCODE, none, none⟩] }
  | WorkItem.tcpItem key encodeOk ns oracle, st =>
    if encodeOk then Except.ok (sendTCPQueryRun key ns oracle st).1
    else Except.error { st with pings := st.pings ++ [⟨STUDY_ERROR_TCP_ENCODE, none, none⟩] }

/-- The sequential await loop over the work list in sendQueries: there is
no try/catch around the calls, so a thrown error aborts the remaining
items and propagates to the caller. -/
def runItems : List WorkItem → MState → Except MState MState
  | [], st => Except.ok st
  | it :: rest, st =>
    match runItem it st with
    | Except.ok st2 => runItems rest st2
    | Except.error st2 => Except.error st2

/-- A value stored in the final telemetry payload object. -/
inductive PValue where
  | str (s : String)
  | attemptsVal (m : JSMap JSNum)
  | dataVal (m : JSMap (List Nat))
deriving DecidableEq, Repr

/-- The completed-measurement payload as runMeasurement builds it: the
object literal with the reason field, then the dnsData and dnsAttempts
property assignments, then the measurementID field added by sendTelemetry.
A JS object keeps insertion order of its string fields. -/
def measurementCompletedPayload (st : MState) (mid : String) : List (String × PValue) :=
  let payload := [("reason", PValue.str STUDY_MEASUREMENT_COMPLETED)]
  let payload := payload ++ [("dnsData", PValue.dataVal st.dnsData)]
  let payload := payload ++ [("dnsAttempts", PValue.attemptsVal st.dnsAttempts)]
  payload ++ [("measurementID", PValue.str mid)]

/-- The tail of runMeasurement after the nameservers are read: run the
work list; only when no item threw is the completed payload built and
submitted. -/
def runMeasurementFrom (items : List WorkItem) (st : MState) (mid : String) :
    Except MState (MState × List (String × PValue)) :=
  match runItems items st with
  | Except.ok st2 => Except.ok (st2, measurementCompletedPayload st2 mid)
  | Except.error st2 => Except.error st2

/-- The work list built by sendQueries before shuffling, as data: the
webext baseline first, then for each catalog entry the four calls with
their keys and query names exactly as the source constructs them.
The per-client TCP call passes keyT as the key but embeds keyU in the
domain, as the source does. -/
structure QueryCall where
  transport : String
  key : String
  domain : String
deriving DecidableEq, Repr

/-- The list of (transport, key, domain) triples sendQueries issues. -/
def buildQueries : List QueryCall :=
  ⟨"webext", "udpAWebExt", APEX_DOMAIN_NAME⟩ ::
  (COMMON_QUERIES.flatMap fun q =>
    let queryName := q.prefixStr ++ APEX_DOMAIN_NAME
    let keyU := computeKey "udp" q true
    let queryNameU := q.prefixStr ++ keyU ++ "." ++ PC_LABEL ++ APEX_DOMAIN_NAME
    let keyT := computeKey "tcp" q true
    let queryNameT := q.prefixStr ++ keyU ++ "." ++ PC_LABEL ++ APEX_DOMAIN_NAME
    [ ⟨"udp", computeKey "udp" q false, queryName⟩,
      ⟨"tcp", computeKey "tcp" q false, queryName⟩,
      ⟨"udp", keyU, queryNameU⟩,
      ⟨"tcp", keyT, queryNameT⟩ ])

/-- The (transport, variant, perClient) triples of the catalog expansion. -/
def allWorkTriples : List (String × QueryVariant × Bool) :=
  COMMON_QUERIES.flatMap fun q =>
    [("udp", q, false), ("tcp", q, false), ("udp", q, true), ("tcp", q, true)]

/-- computeKey applied to one triple of the catalog expansion. -/
def keyOfTriple : String × QueryVariant × Bool → String
  | (t, q, p) => computeKey t q p

/-- A work list whose first item fails to encode and whose second would
succeed; used to exercise the throw on encode failure. -/
def encodeFailDemo : List WorkItem :=
  [ WorkItem.udpItem "udpA" false ["10.0.0.1"] (fun _ => Except.error "x"),
    WorkItem.tcpItem "tcpA" true ["10.0.0.1"] (fun _ => Except.ok [1, 2, 3]) ]

/-- One pass of the UDP nameserver loop issues at most one send attempt
per nameserver. -/
theorem udpNsLoop_issued_le (key : String) (oracle : Nat → SendOutcome) :
    ∀ (ns : List String) (issued : Nat) (st : MState),
      (udpNsLoop key oracle ns issued st).2.1 ≤ issued + ns.length := by
  intro ns
  induction ns with
  | nil => intro issued st; simp [udpNsLoop]
  | cons n t ih =>
    intro issued st
    simp only [udpNsLoop, List.length_cons]
    cases hx : oracle issued with
    | ok bytes =>
      show issued + 1 ≤ issued + (t.length + 1)
      omega
    | error msg =>
      exact Nat.le_trans (ih (issued + 1) _) (by omega)

/-- The UDP retry loop issues at most one attempt per nameserver per pass. -/
theorem udpPassLoop_issued_le (key : String) (oracle : Nat → SendOutcome) (ns : List String) :
    ∀ (p : Nat) (issued : Nat) (st : MState),
      (udpPassLoop key oracle ns p issued st).2.1 ≤ issued + p * ns.length := by
  intro p
  induction p with
  | zero => intro issued st; simp [udpPassLoop]
  | succ q ih =>
    intro issued st
    simp only [udpPassLoop]
    cases hx : udpNsLoop key oracle ns issued st with
    | mk st1 r =>
      obtain ⟨n, b⟩ := r
      have hn : n ≤ issued + ns.length := by
        have h0 := udpNsLoop_issued_le key oracle ns issued st
        rw [hx] at h0
        exact h0
      have hmul : (q + 1) * ns.length = q * ns.length + ns.length := by ring
      cases b with
      | true =>
        show n ≤ issued + (q + 1) * ns.length
        omega
      | false =>
        have h := ih n st1
        show (udpPassLoop key oracle ns q n st1).2.1 ≤ issued + (q + 1) * ns.length
        omega

/-- A UDP work item issues at most 2 times the number of nameservers in
send attempts: two full passes of the sweep. -/
theorem sendUDPQueryRun_issued_le (key : String) (ns : List String)
    (oracle : Nat → SendOutcome) (st : MState) :
    (sendUDPQueryRun key ns oracle st).2.1 ≤ 2 * ns.length := by
  have h := udpPassLoop_issued_le key oracle ns RESOLVCONF_ATTEMPTS 0 st
  simpa [sendUDPQueryRun, RESOLVCONF_ATTEMPTS] using h

/-- The TCP nameserver loop issues at most one attempt per nameserver. -/
theorem tcpNsLoop_issued_le (key : String) (oracle : Nat → SendOutcome) :
    ∀ (ns : List String) (issued : Nat) (st : MState),
      (tcpNsLoop key oracle ns issued st).2.1 ≤ issued + ns.length := by
  intro ns
  induction ns with
  | nil => intro issued st; simp [tcpNsLoop]
  | cons n t ih =>
    intro issued st
    simp only [tcpNsLoop, List.length_cons]
    cases hx : oracle issued with
    | ok bytes =>
      show issued + 1 ≤ issued + (t.length + 1)
      omega
    | error msg =>
      exact Nat.le_trans (ih (issued + 1) _) (by omega)

/-- A TCP work item issues at most one send attempt per nameserver. -/
theorem sendTCPQueryRun_issued_le (key : String) (ns : List String)
    (oracle : Nat → SendOutcome) (st : MState) :
    (sendTCPQueryRun key ns oracle st).2.1 ≤ ns.length := by
  have h := tcpNsLoop_issued_le key oracle ns 0 st
  simpa [sendTCPQueryRun] using h

/-- On the UDP path a stored response is never overwritten: first success
wins for dnsData. -/
theorem udpNsLoop_data_preserved (key : String) (oracle : Nat → SendOutcome) :
    ∀ (ns : List String) (issued : Nat) (st : MState) (v : List Nat),
      mapGet st.dnsData key = some v →
      mapGet (udpNsLoop key oracle ns issued st).1.dnsData key = some v := by
  intro ns
  induction ns with
  | nil => intro issued st v hv; simpa [udpNsLoop] using hv
  | cons n t ih =>
    intro issued st v hv
    simp only [udpNsLoop]
    cases hx : oracle issued with
    | ok bytes => simp [hv]
    | error msg => exact ih (issued + 1) _ v hv

/-- On the TCP path a stored response is never overwritten: first success
wins for dnsData. -/
theorem tcpNsLoop_data_preserved (key : String) (oracle : Nat → SendOutcome) :
    ∀ (ns : List String) (issued : Nat) (st : MState) (v : List Nat),
      mapGet st.dnsData key = some v →
      mapGet (tcpNsLoop key oracle ns issued st).1.dnsData key = some v := by
  intro ns
  induction ns with
  | nil => intro issued st v hv; simpa [tcpNsLoop] using hv
  | cons n t ih =>
    intro issued st v hv
    simp only [tcpNsLoop]
    cases hx : oracle issued with
    | ok bytes =>
      by_cases hg : jsFalsyNum (mapGet st.dnsAttempts key) = true <;> simp [hg, hv]
    | error msg =>
      by_cases hg : jsFalsyNum (mapGet st.dnsAttempts key) = true
      · exact ih (issued + 1) _ v (by simp [hg, hv])
      · exact ih (issued + 1) _ v (by simp [hg, hv])

/-- Claim C1. The claim says dnsData[key] is set iff a send attempt for the
key succeeded, uniformly on the webext, UDP and TCP paths. On the webext
path the source guard (!dnsData[key]) == 0 is false when the key is
absent, so a successful first attempt records the attempt, emits no error
ping, and still leaves dnsData without the key: the only-if direction of
the claim fails on the webext path. -/
theorem c1_webext_success_never_stored :
    mapGet (sendUDPWebExtQuery (Except.ok [34, 120, 4, 181]) initialState).dnsAttempts "udpAWebExt"
      = some JSNum.nan
    ∧ (sendUDPWebExtQuery (Except.ok [34, 120, 4, 181]) initialState).pings = []
    ∧ mapGet (sendUDPWebExtQuery (Except.ok [34, 120, 4, 181]) initialState).dnsData "udpAWebExt"
      = none := by
  decide

/-- Claim C2. The claim says the first recorded attempt for an unseen key
initialises the counter to 1 on the webext, UDP and TCP paths alike. Only
the TCP path guards the increment: on the webext and UDP paths the
unguarded dnsAttempts[key] += 1 on an unseen key stores NaN, not 1. -/
theorem c2_unseen_key_attempt_not_one :
    mapGet (sendUDPQueryRun "udpA" ["10.0.0.1"] (fun _ => Except.ok [1, 2, 3]) initialState).1.dnsAttempts "udpA"
      = some JSNum.nan
    ∧ mapGet (sendUDPWebExtQuery (Except.error "x") initialState).dnsAttempts "udpAWebExt"
      = some JSNum.nan
    ∧ mapGet (sendTCPQueryRun "tcpA" ["10.0.0.1"] (fun _ => Except.ok [1, 2, 3]) initialState).1.dnsAttempts "tcpA"
      = some (JSNum.num 1) := by
  decide

/-- Claim C3, counterexample. The claim says that when noedns0 is set no
OPT record is attached regardless of dnssec_ok; but encodeUDPQuery with
dnssec_ok and noedns0 both set attaches an OPT record (the dnssec_ok
branch overwrites the noedns0 choice of additionals). -/
theorem c3_opt_attached_despite_noedns0 :
    (encodeUDPQuery APEX_DOMAIN_NAME "A" true false true 0).additionals
      = [⟨some UDP_PAYLOAD_SIZE, true⟩]
    ∧ (encodeUDPQuery APEX_DOMAIN_NAME "A" true false true 0).additionals ≠ [] := by
  decide

/-- Claim C3, amended. Every attached OPT record advertises the fixed UDP
payload size 4096; the DNSSEC-OK bit is present among the additionals iff
dnssec_ok is set; and the OPT record is omitted exactly when noedns0 is
set and dnssec_ok is not (dnssec_ok takes precedence over noedns0). -/
theorem c3_udp_opt_record_policy :
    ∀ (domain rrtype : String) (dnssec_ok checking_disabled noedns0 : Bool) (id : Nat),
      ((encodeUDPQuery domain rrtype dnssec_ok checking_disabled noedns0 id).additionals.all
        (fun o => o.udpPayloadSize == some UDP_PAYLOAD_SIZE)) = true
      ∧ ((encodeUDPQuery domain rrtype dnssec_ok checking_disabled noedns0 id).additionals.any
        (fun o => o.dnssecOkFlag)) = dnssec_ok
      ∧ ((encodeUDPQuery domain rrtype dnssec_ok checking_disabled noedns0 id).additionals.isEmpty
        = (noedns0 && !dnssec_ok)) := by
  intro domain rrtype dnssec_ok checking_disabled noedns0 id
  cases dnssec_ok <;> cases noedns0 <;> simp [encodeUDPQuery]

/-- Claim C4. The claim says every key in dnsAttempts maps to a value that
is at least 1 and equal to the number of attempts issued. With one
nameserver and both round trips failing, the UDP sweep issues exactly 2
send attempts (its full budget) without success, but the recorded value is
NaN, which is not the attempt count; a succeeding sweep over two
nameservers stops after 1 attempt, confirming the bounds side only. -/
theorem c4_udp_attempt_counter_not_count :
    (sendUDPQueryRun "udpA" ["10.0.0.1"] (fun _ => Except.error "timeout") initialState).2.1 = 2
    ∧ (sendUDPQueryRun "udpA" ["10.0.0.1"] (fun _ => Except.error "timeout") initialState).2.2 = false
    ∧ mapGet (sendUDPQueryRun "udpA" ["10.0.0.1"] (fun _ => Except.error "timeout") initialState).1.dnsAttempts "udpA"
      = some JSNum.nan
    ∧ some JSNum.nan
      ≠ some (JSNum.num (sendUDPQueryRun "udpA" ["10.0.0.1"] (fun _ => Except.error "timeout") initialState).2.1)
    ∧ (sendUDPQueryRun "udpA" ["10.0.0.1", "10.0.0.2"] (fun _ => Except.ok [1]) initialState).2.1 = 1 := by
  decide

/-- Claim C5. computeKey concatenates the transport and rrtype tokens with
no separator, so on the five example inputs of the claim it returns tcpA,
tcpA-U, udpADO, udpACD and udpA-U-N; every claimed example value (tcp-A,
tcp-A-U, udp-ADO, udp-ACD, udp-A-N-U) differs from the computed one. -/
theorem c5_computeKey_examples_mismatch :
    computeKey "tcp" ⟨"A", "", false, false, false⟩ false = "tcpA" ∧ "tcpA" ≠ "tcp-A"
    ∧ computeKey "tcp" ⟨"A", "", false, false, false⟩ true = "tcpA-U" ∧ "tcpA-U" ≠ "tcp-A-U"
    ∧ computeKey "udp" ⟨"A", "", true, false, false⟩ false = "udpADO" ∧ "udpADO" ≠ "udp-ADO"
    ∧ computeKey "udp" ⟨"A", "", false, true, false⟩ false = "udpACD" ∧ "udpACD" ≠ "udp-ACD"
    ∧ computeKey "udp" ⟨"A", "", false, false, true⟩ true = "udpA-U-N" ∧ "udpA-U-N" ≠ "udp-A-N-U" := by
  decide

/-- Claim C6. The claim says the per-client TCP work item queries a domain
embedding its own TCP key. In the work list sendQueries builds, the only
call with the TCP per-client key of the plain A variant (tcpA-U) queries
udpA-U.pc.dnssec-experiment-moz.net: the domain embeds the UDP key keyU,
not the TCP key, so it differs from the claimed domain. -/
theorem c6_tcp_per_client_domain_embeds_udp_key :
    (buildQueries.filter (fun c => c.key == "tcpA-U")).map (fun c => c.domain)
      = ["udpA-U.pc.dnssec-experiment-moz.net"]
    ∧ computeKey "udp" ⟨"A", "", false, false, false⟩ true = "udpA-U"
    ∧ computeKey "tcp" ⟨"A", "", false, false, false⟩ true = "tcpA-U"
    ∧ "udpA-U.pc.dnssec-experiment-moz.net"
      ≠ "" ++ "tcpA-U" ++ "." ++ PC_LABEL ++ APEX_DOMAIN_NAME := by
  decide

/-- Claim C7, counterexample. The claim says an encode failure is recovered
locally and every remaining work item still executes, the run completing
with a final report. Running a two-item work list whose first item fails
to encode ends in a throw whose state shows exactly one encode-error ping,
no attempt counters touched (so the second item never ran), and no
completed-measurement payload. -/
theorem c7_encode_failure_aborts_run :
    runMeasurementFrom encodeFailDemo initialState "m"
      = Except.error ⟨[], [], [⟨STUDY_ERROR_UDP_ENCODE, none, none⟩]⟩ := by
  rfl

/-- Claim C7, amended. When packet encoding fails for a work item, exactly
one encode-error report is emitted for it and no attempt counter or
nameserver-failover cycle is consumed; but the failure is not recovered
locally: the error is thrown, the remaining work items never execute, and
no completed-measurement report is emitted for the run. -/
theorem c7_encode_failure_reported_once_and_thrown :
    ∀ (key : String) (ns : List String) (oracle : Nat → SendOutcome)
      (rest : List WorkItem) (st : MState) (mid : String),
      runMeasurementFrom (WorkItem.udpItem key false ns oracle :: rest) st mid
        = Except.error { st with pings := st.pings ++ [⟨STUDY_ERROR_UDP_ENCODE, none, none⟩] }
      ∧ runMeasurementFrom (WorkItem.tcpItem key false ns oracle :: rest) st mid
        = Except.error { st with pings := st.pings ++ [⟨STUDY_ERROR_TCP_ENCODE, none, none⟩] } := by
  intro key ns oracle rest st mid
  exact ⟨rfl, rfl⟩

/-- Claim C8. The claim says the completed-measurement payload has exactly
the fields reason, measurementID, dnsAttempts, dnsData, dnsQueryErrors,
dnsQueryInfo, hasErrors, addonVersion and apexDomain. The payload
runMeasurement builds and sendTelemetry completes carries exactly the four
fields reason, dnsData, dnsAttempts and measurementID, for every state and
measurement id; the five other claimed fields are absent. -/
theorem c8_completed_payload_field_set :
    ∀ (st : MState) (mid : String),
      (measurementCompletedPayload st mid).map Prod.fst
        = ["reason", "dnsData", "dnsAttempts", "measurementID"]
      ∧ "dnsQueryErrors" ∉ (measurementCompletedPayload st mid).map Prod.fst
      ∧ "dnsQueryInfo" ∉ (measurementCompletedPayload st mid).map Prod.fst
      ∧ "hasErrors" ∉ (measurementCompletedPayload st mid).map Prod.fst
      ∧ "addonVersion" ∉ (measurementCompletedPayload st mid).map Prod.fst
      ∧ "apexDomain" ∉ (measurementCompletedPayload st mid).map Prod.fst := by
  intro st mid
  refine ⟨rfl, ?_, ?_, ?_, ?_, ?_⟩ <;> simp [measurementCompletedPayload]

/-- Claim C9. The catalog expansion is injective: two triples drawn from
COMMON_QUERIES crossed with the two transports and the per-client flag
that compute the same key are equal, so no two distinct work items of a
run collapse to one aggregation key. -/
theorem c9_catalog_key_injective :
    ∀ a ∈ allWorkTriples, ∀ b ∈ allWorkTriples,
      keyOfTriple a = keyOfTriple b → a = b := by
  have h : (allWorkTriples.map keyOfTriple).Nodup := by decide
  exact fun a ha b hb hk => List.inj_on_of_nodup_map h ha hb hk

/-- Claim C9, witness: the injectivity theorem applied to the first
catalog triple. -/
theorem c9_catalog_key_injective_witness :
    ("udp", (⟨"SMIMEA", SMIMEA_LABEL, false, false, false⟩ : QueryVariant), false)
      = (("udp", (⟨"SMIMEA", SMIMEA_LABEL, false, false, false⟩ : QueryVariant), false)
          : String × QueryVariant × Bool) :=
  c9_catalog_key_injective _ (by decide) _ (by decide) rfl

/-- Claim C10. The TCP packet a work item sends does not depend on the
noedns0 flag of its variant (encodeTCPQuery receives no noedns0 input):
for any variant, flipping noedns0 leaves the encoded message unchanged;
in particular the two catalog A entries differing only in noedns0 produce
identical TCP messages for the apex domain at any fixed transaction id,
while their aggregation keys differ. -/
theorem c10_tcp_encode_independent_of_noedns0 :
    (∀ (domain : String) (q : QueryVariant) (b : Bool) (id : Nat),
      tcpQueryOf domain { q with noedns0 := b } id = tcpQueryOf domain q id)
    ∧ (∀ id : Nat,
      tcpQueryOf APEX_DOMAIN_NAME ⟨"A", "", false, false, false⟩ id
        = tcpQueryOf APEX_DOMAIN_NAME ⟨"A", "", false, false, true⟩ id)
    ∧ computeKey "tcp" ⟨"A", "", false, false, false⟩ false
      ≠ computeKey "tcp" ⟨"A", "", false, false, true⟩ false := by
  refine ⟨fun domain q b id => rfl, fun id => rfl, by decide⟩

end DnsTest
